import Mathlib

/-!
Shallow embedding of the tax computation engine of `src/app.py` (a UK
rental-property income tax calculator).  The engine is the straight-line
computation at lines 413-460 of the source, plus the advisory warning
derivation at lines 727-747.  Monetary amounts are modelled as exact
rationals.  Every definition mirrors one source line or block, named after
the source variable it embeds.
-/

namespace Tania

/-- One rental property record, as assembled into `properties_data` at
src/app.py lines 400-407: a display name plus the three monetary inputs
`rent`, `expenses`, `interest` (each a non-negative form field). -/
structure PropertyRecord where
  name : String
  rent : ℚ
  expenses : ℚ
  interest : ℚ
deriving DecidableEq, BEq, Repr

/-- Per-property profit, `property_profit = rent - expenses` (line 378). -/
def PropertyRecord.profit (p : PropertyRecord) : ℚ := p.rent - p.expenses

/-- `total_rent = sum(p["rent"] for p in properties_data)` (line 413). -/
def total_rent (ps : List PropertyRecord) : ℚ := (ps.map PropertyRecord.rent).sum

/-- `total_expenses = sum(p["expenses"] for p in properties_data)` (line 414). -/
def total_expenses (ps : List PropertyRecord) : ℚ := (ps.map PropertyRecord.expenses).sum

/-- `total_interest = sum(p["interest"] for p in properties_data)` (line 415). -/
def total_interest (ps : List PropertyRecord) : ℚ := (ps.map PropertyRecord.interest).sum

/-- `profit_before_interest = total_rent - total_expenses` (line 417). -/
def profit_before_interest (ps : List PropertyRecord) : ℚ :=
  total_rent ps - total_expenses ps

/-- `taxable_income_before_pa = profit_before_interest + other_income` (line 418). -/
def taxable_income_before_pa (ps : List PropertyRecord) (other_income : ℚ) : ℚ :=
  profit_before_interest ps + other_income

/-- `personal_allowance_full = 12570` (line 421). -/
def personal_allowance_full : ℚ := 12570

/-- The personal allowance taper of lines 422-426: the full allowance,
reduced by half of the excess over 100000 and floored at zero once
`taxable_income_before_pa` exceeds 100000. -/
def personal_allowance (tibpa : ℚ) : ℚ :=
  if tibpa > 100000 then
    max 0 (personal_allowance_full - (tibpa - 100000) / 2)
  else
    personal_allowance_full

/-- `taxable_income = max(0, taxable_income_before_pa - personal_allowance)`
(line 428). -/
def taxable_income (ps : List PropertyRecord) (other_income : ℚ) : ℚ :=
  max 0 (taxable_income_before_pa ps other_income
    - personal_allowance (taxable_income_before_pa ps other_income))

/-- `basic_rate_limit = 37700` (line 434). -/
def basic_rate_limit : ℚ := 37700

/-- `higher_rate_limit = 125140` (line 435). -/
def higher_rate_limit : ℚ := 125140

/-- One entry of the `tax_bands` list: a band label with the income falling
in the band and the tax charged on it (lines 440, 445-446, 452-454). -/
structure TaxBand where
  band : String
  income : ℚ
  tax : ℚ
deriving DecidableEq, BEq, Repr

/-- The `tax_bands` list built by the three-way branch at lines 437-454.
When `taxable_income <= basic_rate_limit` (including zero) the Basic Rate
entry is appended; two entries in the higher-rate branch; three in the
additional-rate branch. -/
def tax_bands (ti : ℚ) : List TaxBand :=
  if ti ≤ basic_rate_limit then
    [⟨"Basic Rate (20%)", ti, ti * 0.20⟩]
  else if ti ≤ higher_rate_limit then
    [⟨"Basic Rate (20%)", basic_rate_limit, basic_rate_limit * 0.20⟩,
     ⟨"Higher Rate (40%)", ti - basic_rate_limit, (ti - basic_rate_limit) * 0.40⟩]
  else
    [⟨"Basic Rate (20%)", basic_rate_limit, basic_rate_limit * 0.20⟩,
     ⟨"Higher Rate (40%)", higher_rate_limit - basic_rate_limit,
       (higher_rate_limit - basic_rate_limit) * 0.40⟩,
     ⟨"Additional Rate (45%)", ti - higher_rate_limit,
       (ti - higher_rate_limit) * 0.45⟩]

/-- The running `tax` total of the same branch, lines 437-454. -/
def tax (ti : ℚ) : ℚ :=
  if ti ≤ basic_rate_limit then
    ti * 0.20
  else if ti ≤ higher_rate_limit then
    basic_rate_limit * 0.20 + (ti - basic_rate_limit) * 0.40
  else
    basic_rate_limit * 0.20 + (higher_rate_limit - basic_rate_limit) * 0.40
      + (ti - higher_rate_limit) * 0.45

/-- `mortgage_tax_credit = total_interest * 0.20` (line 456). -/
def mortgage_tax_credit (interest : ℚ) : ℚ := interest * 0.20

/-- `final_tax = max(0, tax - mortgage_tax_credit)` (line 457). -/
def final_tax (t mtc : ℚ) : ℚ := max 0 (t - mtc)

/-- `effective_rate = (final_tax / taxable_income_before_pa * 100) if
taxable_income_before_pa > 0 else 0` (line 460).  Note the factor of 100:
the source stores a percentage. -/
def effective_rate (ft tibpa : ℚ) : ℚ :=
  if tibpa > 0 then ft / tibpa * 100 else 0

/-- The full derived output of the engine (spec section 3,
TaxComputationResult), assembled from the line-by-line definitions above. -/
structure TaxComputationResult where
  totalRent : ℚ
  totalExpenses : ℚ
  totalInterest : ℚ
  profitBeforeInterest : ℚ
  taxableIncomeBeforePA : ℚ
  personalAllowance : ℚ
  taxableIncome : ℚ
  taxBands : List TaxBand
  incomeTaxBeforeCredit : ℚ
  mortgageTaxCredit : ℚ
  finalTax : ℚ
  effectiveRate : ℚ
deriving DecidableEq, BEq, Repr

/-- The whole straight-line computation of lines 413-460 as one function of
the property list and `other_income`. -/
def computeTax (ps : List PropertyRecord) (other_income : ℚ) : TaxComputationResult :=
  { totalRent := total_rent ps
    totalExpenses := total_expenses ps
    totalInterest := total_interest ps
    profitBeforeInterest := profit_before_interest ps
    taxableIncomeBeforePA := taxable_income_before_pa ps other_income
    personalAllowance := personal_allowance (taxable_income_before_pa ps other_income)
    taxableIncome := taxable_income ps other_income
    taxBands := tax_bands (taxable_income ps other_income)
    incomeTaxBeforeCredit := tax (taxable_income ps other_income)
    mortgageTaxCredit := mortgage_tax_credit (total_interest ps)
    finalTax := final_tax (tax (taxable_income ps other_income))
      (mortgage_tax_credit (total_interest ps))
    effectiveRate := effective_rate
      (final_tax (tax (taxable_income ps other_income))
        (mortgage_tax_credit (total_interest ps)))
      (taxable_income_before_pa ps other_income) }

/-- Severity tag of a warning, the first component of each tuple appended at
lines 730-747. -/
inductive Severity
  | sevError
  | sevWarning
  | sevInfo
deriving DecidableEq, BEq, Repr

/-- Identifying kind for each of the six advisory checks at lines 730-747,
standing for the title string of the corresponding tuple. -/
inductive WarnKind
  | noRentalIncome
  | expensesExceedRent
  | interestExceedsRent
  | paTaper
  | lossProperties
  | highTaxLiability
deriving DecidableEq, BEq, Repr

/-- One advisory warning: severity, kind, and the monetary figure
interpolated into its message when the message carries one.  The taper
warning's message interpolates `personal_allowance` itself (line 740:
"Your PA has been reduced to ..."); the other messages carry no derived
monetary figure. -/
structure Warning where
  severity : Severity
  kind : WarnKind
  value : Option ℚ
deriving DecidableEq, BEq, Repr

/-- The `warnings` list built by the six independent checks at src/app.py
lines 727-747, in source order. -/
def warnings (ps : List PropertyRecord) (other_income : ℚ) : List Warning :=
  (if total_rent ps = 0 then [⟨.sevError, .noRentalIncome, none⟩] else []) ++
  (if total_expenses ps > total_rent ps then [⟨.sevWarning, .expensesExceedRent, none⟩] else []) ++
  (if total_interest ps > total_rent ps then [⟨.sevWarning, .interestExceedsRent, none⟩] else []) ++
  (if taxable_income_before_pa ps other_income > 100000 then
    [⟨.sevInfo, .paTaper, some (personal_allowance (taxable_income_before_pa ps other_income))⟩]
   else []) ++
  (if ps.any (fun p => decide (p.profit < 0)) then [⟨.sevWarning, .lossProperties, none⟩] else []) ++
  (if final_tax (tax (taxable_income ps other_income)) (mortgage_tax_credit (total_interest ps))
      > 10000 then
    [⟨.sevInfo, .highTaxLiability, none⟩]
   else [])

end Tania

namespace Tania

/-! Helper lemmas shared by the claim theorems. -/

lemma personal_allowance_nonneg (x : ℚ) : 0 ≤ personal_allowance x := by
  unfold personal_allowance personal_allowance_full
  split_ifs with h
  · exact le_max_left _ _
  · norm_num

lemma personal_allowance_le_full (x : ℚ) : personal_allowance x ≤ 12570 := by
  unfold personal_allowance personal_allowance_full
  split_ifs with h
  · exact max_le (by norm_num) (by linarith)
  · norm_num

lemma tax_bands_income_sum (ti : ℚ) : ((tax_bands ti).map TaxBand.income).sum = ti := by
  unfold tax_bands
  split_ifs <;> simp

lemma tax_bands_tax_sum (ti : ℚ) : ((tax_bands ti).map TaxBand.tax).sum = tax ti := by
  unfold tax_bands tax
  split_ifs with h1 h2 <;> simp [add_assoc]

lemma total_rent_perm {ps ps' : List PropertyRecord} (h : ps.Perm ps') :
    total_rent ps = total_rent ps' :=
  List.Perm.sum_eq (h.map _)

lemma total_expenses_perm {ps ps' : List PropertyRecord} (h : ps.Perm ps') :
    total_expenses ps = total_expenses ps' :=
  List.Perm.sum_eq (h.map _)

lemma total_interest_perm {ps ps' : List PropertyRecord} (h : ps.Perm ps') :
    total_interest ps = total_interest ps' :=
  List.Perm.sum_eq (h.map _)

lemma total_interest_nonneg {ps : List PropertyRecord}
    (hI : ∀ p ∈ ps, 0 ≤ p.interest) : 0 ≤ total_interest ps := by
  refine List.sum_nonneg ?_
  intro x hx
  simp only [List.mem_map] at hx
  obtain ⟨p, hp, rfl⟩ := hx
  exact hI p hp

lemma filter_ite_nil (c : Prop) [Decidable c] (w : Warning) (f : Warning → Bool)
    (h : f w = false) : List.filter f (if c then [w] else []) = [] := by
  split_ifs <;> simp [List.filter, h]

lemma filter_ite_self (c : Prop) [Decidable c] (w : Warning) (f : Warning → Bool)
    (h : f w = true) : List.filter f (if c then [w] else []) = if c then [w] else [] := by
  split_ifs <;> simp [List.filter, h]

/-- Claim C1: for every taxableIncome at least 0, the banded calculator taxes
the first 37700 at 20 percent, the portion between 37700 and 125140 at 40
percent, and the portion above 125140 at 45 percent, with the tax total equal
to the sum of the per-band taxes; taxableIncome 37700 yields 7540 with one
band, 50000 yields 12460 with two bands, and 150000 yields 53703 with three
bands. -/
theorem tax_banded_progressive :
    (∀ ti : ℚ, 0 ≤ ti →
      tax ti = min ti basic_rate_limit * 0.20
        + min (max (ti - basic_rate_limit) 0) (higher_rate_limit - basic_rate_limit) * 0.40
        + max (ti - higher_rate_limit) 0 * 0.45)
    ∧ (∀ ti : ℚ, ((tax_bands ti).map TaxBand.tax).sum = tax ti)
    ∧ tax 37700 = 7540 ∧ (tax_bands 37700).length = 1
    ∧ tax 50000 = 12460 ∧ (tax_bands 50000).length = 2
    ∧ tax 150000 = 53703 ∧ (tax_bands 150000).length = 3 := by
  refine ⟨fun ti h => ?_, tax_bands_tax_sum, ?_, ?_, ?_, ?_, ?_, ?_⟩
  · unfold tax basic_rate_limit higher_rate_limit
    split_ifs with h1 h2
    · rw [min_eq_left h1, max_eq_right (by linarith : ti - 37700 ≤ (0:ℚ)),
        max_eq_right (by linarith : ti - 125140 ≤ (0:ℚ))]
      norm_num
    · rw [min_eq_right (by linarith : (37700:ℚ) ≤ ti),
        max_eq_left (by linarith : (0:ℚ) ≤ ti - 37700),
        min_eq_left (by linarith : ti - 37700 ≤ (125140:ℚ) - 37700),
        max_eq_right (by linarith : ti - 125140 ≤ (0:ℚ))]
      ring
    · rw [min_eq_right (by linarith : (37700:ℚ) ≤ ti),
        max_eq_left (by linarith : (0:ℚ) ≤ ti - 37700),
        min_eq_right (by linarith : (125140:ℚ) - 37700 ≤ ti - 37700),
        max_eq_left (by linarith : (0:ℚ) ≤ ti - 125140)]
  all_goals norm_num [tax, tax_bands, basic_rate_limit, higher_rate_limit]

/-- Witness for C1: the banded formula instantiated at taxableIncome 40000. -/
theorem tax_banded_progressive_witness :
    tax 40000 = min 40000 basic_rate_limit * 0.20
      + min (max ((40000:ℚ) - basic_rate_limit) 0) (higher_rate_limit - basic_rate_limit) * 0.40
      + max ((40000:ℚ) - higher_rate_limit) 0 * 0.45 :=
  tax_banded_progressive.1 40000 (by norm_num)

/-- Claim C2: for every taxableIncomeBeforeAllowance at least 0, the personal
allowance equals 12570 when the input is at most 100000 and
max(0, 12570 - (input - 100000) / 2) otherwise, so it always lies in
[0, 12570]; input 100000 gives 12570, input 112570 gives 6285 and input
125140 gives 0. -/
theorem personal_allowance_taper_spec :
    (∀ x : ℚ, 0 ≤ x →
      (personal_allowance x =
        if x ≤ 100000 then 12570 else max 0 (12570 - (x - 100000) / 2))
      ∧ 0 ≤ personal_allowance x ∧ personal_allowance x ≤ 12570)
    ∧ personal_allowance 100000 = 12570
    ∧ personal_allowance 112570 = 6285
    ∧ personal_allowance 125140 = 0 := by
  refine ⟨fun x hx => ⟨?_, personal_allowance_nonneg x, personal_allowance_le_full x⟩, ?_, ?_, ?_⟩
  · unfold personal_allowance personal_allowance_full
    split_ifs with h1 h2 <;> first | rfl | linarith
  · norm_num [personal_allowance, personal_allowance_full]
  · norm_num [personal_allowance, personal_allowance_full]
  · norm_num [personal_allowance, personal_allowance_full]

/-- Witness for C2: the taper characterisation instantiated at input 50000. -/
theorem personal_allowance_taper_spec_witness :
    (personal_allowance 50000 =
      if (50000:ℚ) ≤ 100000 then 12570 else max 0 (12570 - ((50000:ℚ) - 100000) / 2))
    ∧ 0 ≤ personal_allowance 50000 ∧ personal_allowance 50000 ≤ 12570 :=
  personal_allowance_taper_spec.1 50000 (by norm_num)

/-- Claim C3: the mortgage tax credit is totalInterest times 0.20 with no cap,
so it may exceed incomeTaxBeforeCredit, and finalTax is
max(0, incomeTaxBeforeCredit - mortgageTaxCredit); in particular
incomeTaxBeforeCredit 1000 with totalInterest 10000 gives credit 2000,
exceeding the tax due, and finalTax 0. -/
theorem mortgage_credit_uncapped :
    (∀ (ps : List PropertyRecord) (oi : ℚ),
      (computeTax ps oi).mortgageTaxCredit = (computeTax ps oi).totalInterest * 0.20
      ∧ (computeTax ps oi).finalTax
          = max 0 ((computeTax ps oi).incomeTaxBeforeCredit - (computeTax ps oi).mortgageTaxCredit))
    ∧ mortgage_tax_credit 10000 = 2000
    ∧ 1000 < mortgage_tax_credit 10000
    ∧ final_tax 1000 (mortgage_tax_credit 10000) = 0 := by
  refine ⟨fun ps oi => ⟨rfl, rfl⟩, ?_, ?_, ?_⟩ <;>
    norm_num [mortgage_tax_credit, final_tax]

/-- Claim C4: for every portfolio with non-negative rent, expenses, interest
and non-negative otherIncome, the result satisfies
finalTax = max(0, incomeTaxBeforeCredit - mortgageTaxCredit), finalTax is
non-negative, and personalAllowance lies in [0, 12570]. -/
theorem result_invariants (ps : List PropertyRecord) (oi : ℚ)
    (_hps : ∀ p ∈ ps, 0 ≤ p.rent ∧ 0 ≤ p.expenses ∧ 0 ≤ p.interest)
    (_hoi : 0 ≤ oi) :
    (computeTax ps oi).finalTax
      = max 0 ((computeTax ps oi).incomeTaxBeforeCredit - (computeTax ps oi).mortgageTaxCredit)
    ∧ 0 ≤ (computeTax ps oi).finalTax
    ∧ 0 ≤ (computeTax ps oi).personalAllowance
    ∧ (computeTax ps oi).personalAllowance ≤ 12570 :=
  ⟨rfl, le_max_left _ _, personal_allowance_nonneg _, personal_allowance_le_full _⟩

/-- Witness for C4: the invariants instantiated on a one-property portfolio. -/
theorem result_invariants_witness :
    (computeTax [⟨"Property 1", 12000, 3000, 4000⟩] 0).finalTax
      = max 0 ((computeTax [⟨"Property 1", 12000, 3000, 4000⟩] 0).incomeTaxBeforeCredit
        - (computeTax [⟨"Property 1", 12000, 3000, 4000⟩] 0).mortgageTaxCredit)
    ∧ 0 ≤ (computeTax [⟨"Property 1", 12000, 3000, 4000⟩] 0).finalTax
    ∧ 0 ≤ (computeTax [⟨"Property 1", 12000, 3000, 4000⟩] 0).personalAllowance
    ∧ (computeTax [⟨"Property 1", 12000, 3000, 4000⟩] 0).personalAllowance ≤ 12570 :=
  result_invariants _ 0
    (by intro p hp; rw [List.mem_singleton] at hp; subst hp;
        refine ⟨by norm_num, by norm_num, by norm_num⟩)
    (by norm_num)

/-- Counterexample to C5 as stated: on the empty portfolio with zero other
income the taxable income is 0, yet the band list is not empty — the source
appends the Basic Rate entry with zero income. -/
theorem zero_income_band_recorded :
    (computeTax [] 0).taxableIncome = 0 ∧ (computeTax [] 0).taxBands ≠ [] := by
  constructor
  · show taxable_income [] 0 = 0
    norm_num [taxable_income, taxable_income_before_pa, profit_before_interest,
      total_rent, total_expenses, personal_allowance, personal_allowance_full, max_def]
  · show tax_bands (taxable_income [] 0) ≠ []
    norm_num [tax_bands, taxable_income, taxable_income_before_pa, profit_before_interest,
      total_rent, total_expenses, personal_allowance, personal_allowance_full, max_def,
      basic_rate_limit]

/-- Claim C5 (amended): when taxableIncome = 0 the engine records exactly one
band, the Basic Rate band with incomeInBand 0 and taxInBand 0, and
incomeTaxBeforeCredit = 0; only bands above the band in which the income
ends are omitted from the list (one band up to 37700, two up to 125140,
three beyond), and the recorded bands always sum to the tax total, so the
omissions never affect it. -/
theorem zero_taxable_income_basic_band (ps : List PropertyRecord) (oi : ℚ) :
    ((computeTax ps oi).taxableIncome = 0 →
      (computeTax ps oi).taxBands = [⟨"Basic Rate (20%)", 0, 0⟩]
      ∧ (computeTax ps oi).incomeTaxBeforeCredit = 0)
    ∧ ((computeTax ps oi).taxBands).length
        = (if (computeTax ps oi).taxableIncome ≤ basic_rate_limit then 1
           else if (computeTax ps oi).taxableIncome ≤ higher_rate_limit then 2 else 3)
    ∧ (((computeTax ps oi).taxBands).map TaxBand.tax).sum
        = (computeTax ps oi).incomeTaxBeforeCredit := by
  refine ⟨fun h => ?_, ?_, tax_bands_tax_sum _⟩
  · have h' : taxable_income ps oi = 0 := h
    constructor
    · show tax_bands (taxable_income ps oi) = _
      rw [h']
      norm_num [tax_bands, basic_rate_limit]
    · show tax (taxable_income ps oi) = 0
      rw [h']
      norm_num [tax, basic_rate_limit]
  · show (tax_bands (taxable_income ps oi)).length
        = (if taxable_income ps oi ≤ basic_rate_limit then 1
           else if taxable_income ps oi ≤ higher_rate_limit then 2 else 3)
    unfold tax_bands
    split_ifs <;> rfl

/-- Witness for C5 (amended): the zero-income case instantiated on the empty
portfolio. -/
theorem zero_taxable_income_basic_band_witness :
    (computeTax [] 0).taxBands = [⟨"Basic Rate (20%)", 0, 0⟩]
    ∧ (computeTax [] 0).incomeTaxBeforeCredit = 0 :=
  (zero_taxable_income_basic_band [] 0).1
    (by
      show taxable_income [] 0 = 0
      norm_num [taxable_income, taxable_income_before_pa, profit_before_interest,
        total_rent, total_expenses, personal_allowance, personal_allowance_full, max_def])

/-- Counterexample to C6 as stated: with other income 50000 and no
properties the denominator is positive, yet the stored effective rate is not
the plain quotient finalTax / taxableIncomeBeforeAllowance — the source
multiplies the quotient by 100. -/
theorem effectiveRate_not_plain_quotient :
    0 < (computeTax [] 50000).taxableIncomeBeforePA
    ∧ (computeTax [] 50000).effectiveRate
        ≠ (computeTax [] 50000).finalTax / (computeTax [] 50000).taxableIncomeBeforePA := by
  have htibpa : taxable_income_before_pa [] 50000 = 50000 := by
    norm_num [taxable_income_before_pa, profit_before_interest, total_rent, total_expenses]
  have hti : taxable_income [] 50000 = 37430 := by
    norm_num [taxable_income, htibpa, personal_allowance, personal_allowance_full, max_def]
  have htax : tax (taxable_income [] 50000) = 7486 := by
    rw [hti]
    norm_num [tax, basic_rate_limit]
  have hft : final_tax (tax (taxable_income [] 50000)) (mortgage_tax_credit (total_interest []))
      = 7486 := by
    rw [htax]
    norm_num [final_tax, mortgage_tax_credit, total_interest, max_def]
  constructor
  · show 0 < taxable_income_before_pa [] 50000
    rw [htibpa]; norm_num
  · show effective_rate
        (final_tax (tax (taxable_income [] 50000)) (mortgage_tax_credit (total_interest [])))
        (taxable_income_before_pa [] 50000)
      ≠ final_tax (tax (taxable_income [] 50000)) (mortgage_tax_credit (total_interest []))
        / taxable_income_before_pa [] 50000
    rw [hft, htibpa]
    norm_num [effective_rate]

/-- Claim C6 (amended): effectiveRate equals finalTax divided by
taxableIncomeBeforeAllowance multiplied by 100 (a percentage) when the
denominator is strictly positive, and 0 otherwise; in particular a
non-positive denominator yields 0 rather than a division failure. -/
theorem effectiveRate_is_percentage (ps : List PropertyRecord) (oi : ℚ) :
    ((computeTax ps oi).effectiveRate
      = if 0 < (computeTax ps oi).taxableIncomeBeforePA then
          (computeTax ps oi).finalTax / (computeTax ps oi).taxableIncomeBeforePA * 100
        else 0)
    ∧ ((computeTax ps oi).taxableIncomeBeforePA ≤ 0 → (computeTax ps oi).effectiveRate = 0) := by
  constructor
  · rfl
  · intro h
    show effective_rate _ (taxable_income_before_pa ps oi) = 0
    unfold effective_rate
    rw [if_neg (by simpa using h)]

/-- Witness for C6 (amended): the zero-denominator branch instantiated on the
empty portfolio. -/
theorem effectiveRate_is_percentage_witness :
    (computeTax [] 0).effectiveRate = 0 :=
  (effectiveRate_is_percentage [] 0).2
    (by
      show taxable_income_before_pa [] 0 ≤ 0
      norm_num [taxable_income_before_pa, profit_before_interest, total_rent, total_expenses])

/-- Counterexample to C7 as stated: with other income 110000 the taper flag
fires and carries 7570 — the tapered allowance that remains — while the
allowance actually lost is 12570 - 7570 = 5000. -/
theorem taper_flag_value_counterexample :
    warnings [] 110000
      = [⟨.sevError, .noRentalIncome, none⟩,
         ⟨.sevInfo, .paTaper, some 7570⟩,
         ⟨.sevInfo, .highTaxLiability, none⟩]
    ∧ 12570 - personal_allowance (taxable_income_before_pa [] 110000) = 5000
    ∧ (7570 : ℚ) ≠ 5000 := by
  have htibpa : taxable_income_before_pa [] 110000 = 110000 := by
    norm_num [taxable_income_before_pa, profit_before_interest, total_rent, total_expenses]
  have hpa : personal_allowance (taxable_income_before_pa [] 110000) = 7570 := by
    rw [htibpa]
    norm_num [personal_allowance, personal_allowance_full, max_def]
  have hti : taxable_income [] 110000 = 102430 := by
    unfold taxable_income
    rw [htibpa]
    norm_num [personal_allowance, personal_allowance_full, max_def]
  have htax : tax (taxable_income [] 110000) = 33432 := by
    rw [hti]
    norm_num [tax, basic_rate_limit, higher_rate_limit]
  have hft : final_tax (tax (taxable_income [] 110000)) (mortgage_tax_credit (total_interest []))
      = 33432 := by
    rw [htax]
    norm_num [final_tax, mortgage_tax_credit, total_interest, max_def]
  refine ⟨?_, ?_, by norm_num⟩
  · unfold warnings
    rw [if_pos (by norm_num [total_rent]),
      if_neg (by norm_num [total_rent, total_expenses]),
      if_neg (by norm_num [total_rent, total_interest]),
      if_pos (by rw [htibpa]; norm_num),
      if_neg (by simp),
      if_pos (by rw [hft]; norm_num)]
    rw [hpa]
    simp
  · rw [hpa]
    norm_num

/-- Claim C7 (amended): the taper advisory fires exactly when
taxableIncomeBeforeAllowance exceeds 100000, and it carries the tapered
personal allowance that remains (personalAllowance), not the allowance
lost. -/
theorem taper_flag_spec (ps : List PropertyRecord) (oi : ℚ) :
    (warnings ps oi).filter (fun w => w.kind == WarnKind.paTaper)
      = if 100000 < taxable_income_before_pa ps oi then
          [⟨.sevInfo, .paTaper,
            some (personal_allowance (taxable_income_before_pa ps oi))⟩]
        else [] := by
  unfold warnings
  rw [List.filter_append, List.filter_append, List.filter_append, List.filter_append,
    List.filter_append]
  rw [filter_ite_nil _ _ _ rfl, filter_ite_nil _ _ _ rfl, filter_ite_nil _ _ _ rfl,
    filter_ite_self _ _ _ rfl, filter_ite_nil _ _ _ rfl, filter_ite_nil _ _ _ rfl]
  simp [gt_iff_lt]

/-- Claim C8: permuting the property list changes no aggregate and no derived
figure — the whole computed result is unchanged. -/
theorem computeTax_perm_invariant (ps ps' : List PropertyRecord) (oi : ℚ)
    (h : ps.Perm ps') :
    computeTax ps oi = computeTax ps' oi := by
  unfold computeTax taxable_income taxable_income_before_pa profit_before_interest
  rw [total_rent_perm h, total_expenses_perm h, total_interest_perm h]

/-- Witness for C8: swapping a two-property portfolio leaves the result
unchanged. -/
theorem computeTax_perm_invariant_witness :
    computeTax [⟨"A", 12000, 3000, 4000⟩, ⟨"B", 8000, 2000, 1000⟩] 5000
      = computeTax [⟨"B", 8000, 2000, 1000⟩, ⟨"A", 12000, 3000, 4000⟩] 5000 :=
  computeTax_perm_invariant _ _ 5000 (List.Perm.swap _ _ _)

/-- Claim C9: for every computed result the incomeInBand entries of the
recorded bands sum to taxableIncome, and the taxInBand entries sum to
incomeTaxBeforeCredit. -/
theorem taxBands_totals (ps : List PropertyRecord) (oi : ℚ) :
    (((computeTax ps oi).taxBands).map TaxBand.income).sum = (computeTax ps oi).taxableIncome
    ∧ (((computeTax ps oi).taxBands).map TaxBand.tax).sum
        = (computeTax ps oi).incomeTaxBeforeCredit :=
  ⟨tax_bands_income_sum _, tax_bands_tax_sum _⟩

/-- Claim C10: whenever taxableIncomeBeforeAllowance is non-positive and the
per-property interest amounts are non-negative, the engine yields
taxableIncome = 0, incomeTaxBeforeCredit = 0, finalTax = 0 and
effectiveRate = 0, whatever the total interest. -/
theorem rental_loss_zero_outputs (ps : List PropertyRecord) (oi : ℚ)
    (h : taxable_income_before_pa ps oi ≤ 0)
    (hI : ∀ p ∈ ps, 0 ≤ p.interest) :
    (computeTax ps oi).taxableIncome = 0
    ∧ (computeTax ps oi).incomeTaxBeforeCredit = 0
    ∧ (computeTax ps oi).finalTax = 0
    ∧ (computeTax ps oi).effectiveRate = 0 := by
  have hpa : personal_allowance (taxable_income_before_pa ps oi) = 12570 := by
    unfold personal_allowance personal_allowance_full
    rw [if_neg (by linarith)]
  have hti : taxable_income ps oi = 0 := by
    unfold taxable_income
    rw [hpa]
    exact max_eq_left (by linarith)
  have htax : tax (taxable_income ps oi) = 0 := by
    rw [hti]
    unfold tax basic_rate_limit
    rw [if_pos (by norm_num)]
    norm_num
  have hmtc : 0 ≤ mortgage_tax_credit (total_interest ps) := by
    unfold mortgage_tax_credit
    have := total_interest_nonneg hI
    positivity
  refine ⟨hti, htax, ?_, ?_⟩
  · show final_tax (tax (taxable_income ps oi)) (mortgage_tax_credit (total_interest ps)) = 0
    rw [htax]
    unfold final_tax
    exact max_eq_left (by linarith)
  · show effective_rate _ (taxable_income_before_pa ps oi) = 0
    unfold effective_rate
    rw [if_neg (by linarith)]

/-- Witness for C10: a single loss-making property with positive interest
still yields all-zero tax outputs. -/
theorem rental_loss_zero_outputs_witness :
    (computeTax [⟨"Property 1", 0, 1000, 500⟩] 0).taxableIncome = 0
    ∧ (computeTax [⟨"Property 1", 0, 1000, 500⟩] 0).incomeTaxBeforeCredit = 0
    ∧ (computeTax [⟨"Property 1", 0, 1000, 500⟩] 0).finalTax = 0
    ∧ (computeTax [⟨"Property 1", 0, 1000, 500⟩] 0).effectiveRate = 0 :=
  rental_loss_zero_outputs _ 0
    (by norm_num [taxable_income_before_pa, profit_before_interest, total_rent, total_expenses])
    (by intro p hp; rw [List.mem_singleton] at hp; subst hp; norm_num)

end Tania
